import Mathlib

/-!
Verification of the Hue Bridge lifecycle subsystem of the raycast-extensions
repository: certificate validation (`hueNetworking.ts`), the secure session
setup (`createHueClient.ts`), linking (`getBridgeConfig.ts`,
`getUsernameFromBridge`), discovery (`discoverBridgeUsingMdns`), preference
loading and the orchestrating state machine (`hueBridgeMachine.ts`).

Every definition is a shallow embedding of the corresponding TypeScript
function; JavaScript string semantics (truthiness, `toLowerCase`,
`charAt(0).toUpperCase() + slice(1)`) and Node's `net.isIP` are modelled
explicitly for the ASCII inputs that occur here.  String scanning is done
over `List Char` by structural recursion so that every definition reduces
inside the kernel.
-/

deriving instance DecidableEq for Except

namespace Hue

/-- JavaScript truthiness of an optional string: `undefined` and the empty
string are falsy, every other string is truthy. -/
def jsTruthy : Option String → Bool
  | none => false
  | some s => s ≠ ""

/-- JavaScript `String.prototype.toLowerCase` restricted to ASCII input. -/
def jsToLowerCase (s : String) : String :=
  String.mk (s.data.map Char.toLower)

/-- JavaScript `s.charAt(0).toUpperCase() + s.slice(1)` (ASCII input): the
first character is upper-cased, the rest is kept; the empty string maps to
itself. -/
def jsCapitalize (s : String) : String :=
  match s.data with
  | [] => ""
  | c :: rest => String.mk (Char.toUpper c :: rest)

/-- A hexadecimal digit as accepted by the character class `[0-9a-fA-F]`. -/
def isHexChar (c : Char) : Bool :=
  c.isDigit || ('a' ≤ c && c ≤ 'f') || ('A' ≤ c && c ≤ 'F')

/-- The test of the regular expression `^([0-9a-fA-F]){16}$` from
`validateBridgeCertificate`: exactly 16 hexadecimal characters. -/
def isHex16 (s : String) : Bool :=
  s.length == 16 && s.data.all isHexChar

/-- Splitting a character list at every occurrence of a separator character,
the analogue of JavaScript `String.prototype.split` with a one-character
separator. -/
def splitChar (sep : Char) : List Char → List (List Char)
  | [] => [[]]
  | c :: rest =>
    match splitChar sep rest with
    | [] => if c == sep then [[], []] else [[c]]
    | p :: ps => if c == sep then [] :: p :: ps else (c :: p) :: ps

/-- Splitting a character list at the first occurrence of `::` (used for the
single compressed-zero marker of an IPv6 literal); `none` when there is no
occurrence. -/
def splitDoubleColon : List Char → Option (List Char × List Char)
  | [] => none
  | ':' :: ':' :: rest => some ([], rest)
  | c :: rest =>
    match splitDoubleColon rest with
    | none => none
    | some (l, r) => some (c :: l, r)

/-- Numeric value of a decimal digit list (used for the 0–255 bound of an
IPv4 segment). -/
def decValue (cs : List Char) : Nat :=
  cs.foldl (fun n c => n * 10 + (c.toNat - 48)) 0

/-- One segment of a dotted-quad IPv4 address, as in Node's `v4Seg` regex
`25[0-5]|2[0-4][0-9]|1[0-9][0-9]|[1-9][0-9]|[0-9]`: one to three decimal
digits, no leading zero unless the segment is exactly "0", value at most
255. -/
def isV4SegChars (cs : List Char) : Bool :=
  cs.length ≥ 1 && cs.length ≤ 3 && cs.all Char.isDigit &&
    (cs.length == 1 || cs.headD ' ' ≠ '0') && decValue cs ≤ 255

/-- Node's `net.isIPv4` on a character list: four `v4Seg` segments separated
by dots. -/
def isIPv4Chars (cs : List Char) : Bool :=
  let parts := splitChar '.' cs
  parts.length == 4 && parts.all isV4SegChars

/-- Node's `net.isIPv4`: four `v4Seg` segments separated by dots. -/
def isIPv4 (s : String) : Bool :=
  isIPv4Chars s.data

/-- One hexadecimal group of an IPv6 address (`v6Seg` in Node: one to four
hexadecimal characters). -/
def isV6Seg (cs : List Char) : Bool :=
  cs.length ≥ 1 && cs.length ≤ 4 && cs.all isHexChar

/-- The core of Node's IPv6 regex (without the optional zone suffix).
Either eight hexadecimal groups (six plus a trailing dotted quad counting
for two), or a single `::` with hexadecimal groups on both sides — an
optional trailing dotted quad again counting for two — totalling at most
seven groups. -/
def isIPv6Core (core : List Char) : Bool :=
  match splitDoubleColon core with
  | none =>
    let ps := splitChar ':' core
    (ps.length == 8 && ps.all isV6Seg) ||
      (ps.length == 7 && ps.dropLast.all isV6Seg && isIPv4Chars (ps.getLastD []))
  | some (l, r) =>
    if (splitDoubleColon r).isSome then false
    else
      let ls := if l.isEmpty then [] else splitChar ':' l
      let rs := if r.isEmpty then [] else splitChar ':' r
      ls.all isV6Seg &&
        ((rs.all isV6Seg && ls.length + rs.length ≤ 7) ||
          (!rs.isEmpty && rs.dropLast.all isV6Seg && isIPv4Chars (rs.getLastD []) &&
            ls.length + rs.length + 1 ≤ 7))

/-- Node's `net.isIPv6`: the IPv6 core optionally followed by a `%zone`
suffix whose zone is one or more characters from `[0-9a-zA-Z-.:]`. -/
def isIPv6 (s : String) : Bool :=
  match splitChar '%' s.data with
  | [core] => isIPv6Core core
  | [core, zone] =>
    isIPv6Core core && zone.length ≥ 1 &&
      zone.all (fun c => c.isAlphanum || c == '-' || c == '.' || c == ':')
  | _ => false

/-- Node's `net.isIP`: 4 for an IPv4 literal, 6 for an IPv6 literal, 0
otherwise. -/
def netIsIP (s : String) : Nat :=
  if isIPv4 s then 4 else if isIPv6 s then 6 else 0

/-! ### Certificates and their validation (`hueNetworking.ts`) -/

/-- A distinguished name as read from a peer certificate; only the common
name is used by this repository. -/
structure CertName where
  CN : String
deriving DecidableEq, Repr

/-- The slice of Node's `PeerCertificate` that the repository reads: subject
and issuer common names and the raw DER bytes (each a value 0–255). -/
structure PeerCertificate where
  subject : CertName
  issuer : CertName
  raw : List Nat
deriving DecidableEq, Repr

/-- The three errors `validateBridgeCertificate` can throw, in source
order. -/
inductive ValidateError where
  | cnNotValidBridgeId (cn : String)
  | subjectCnMismatch
  | issuerCnMismatch
deriving DecidableEq, Repr

/-- The exact messages thrown by `validateBridgeCertificate`
(`hueNetworking.ts`, lines 117–127). -/
def ValidateError.message : ValidateError → String
  | .cnNotValidBridgeId cn =>
    "The CN of the certificate is not a valid Hue Bridge ID: " ++ cn
  | .subjectCnMismatch =>
    "Certificate subject’s Common Name does not match the Bridge ID"
  | .issuerCnMismatch =>
    "Certificate issuer’s Common Name does not match the expected value"

/-- `validateBridgeCertificate` from `hueNetworking.ts`, lines 102–128.  The
source computes four booleans and throws on the first failed check, in this
order: the subject CN must match `^([0-9a-fA-F]){16}$`; the subject CN must
be strictly equal (`===`) to `bridgeId` — when `bridgeId` is `undefined`
this comparison is false; and the certificate must be self-signed or issued
by `root-bridge`. -/
def validateBridgeCertificate (peerCertificate : PeerCertificate)
    (bridgeId : Option String) : Except ValidateError Unit :=
  let cnIsValidBridgeId := isHex16 peerCertificate.subject.CN
  let subjectCnIsBridgeId :=
    match bridgeId with
    | some b => peerCertificate.subject.CN == b
    | none => false
  let hasValidSelfSignedCertificate :=
    peerCertificate.subject.CN == peerCertificate.issuer.CN
  let isRootBridgeCertificate := peerCertificate.issuer.CN == "root-bridge"
  if !cnIsValidBridgeId then
    .error (.cnNotValidBridgeId peerCertificate.subject.CN)
  else if !subjectCnIsBridgeId then
    .error .subjectCnMismatch
  else if !hasValidSelfSignedCertificate && !isRootBridgeCertificate then
    .error .issuerCnMismatch
  else
    .ok ()

/-- The error taxonomy the specification gives for `CertificateValidator`. -/
inductive CertificateError where
  | MalformedIdentity
  | IdentityMismatch
  | UntrustedIssuer
  | PinMismatch
deriving DecidableEq, Repr

/-- Modelled from the spec: the `CertificateValidator.validate` contract as
the specification words it (section 4.1, rules 1–3) — rule 2 compares
case-insensitively and applies only when `expectedId` is known.  This
definition exists to be compared with `validateBridgeCertificate`, the
code's actual check. -/
def validateCertificateSpec (cert : PeerCertificate)
    (expectedId : Option String) : Except CertificateError Unit :=
  if !isHex16 cert.subject.CN then
    .error .MalformedIdentity
  else if (match expectedId with
    | some e => jsToLowerCase cert.subject.CN != jsToLowerCase e
    | none => false) then
    .error .IdentityMismatch
  else if cert.subject.CN != cert.issuer.CN && cert.issuer.CN != "root-bridge" then
    .error .UntrustedIssuer
  else
    .ok ()

/-! ### Bridge configuration (`lib/types.ts`) and the handshake identity
check of `createHueClient.ts` -/

/-- The persisted bridge configuration.  The source field for the pinned
certificate is `selfSignedCertificate` (the spec calls it
`pinnedCertificatePem`); it is present iff the Bridge's certificate was
self-signed when the configuration was assembled.  `ipAddress` is optional
because `createHueClient`'s `lookup` hook guards on
`bridgeConfig.ipAddress !== undefined`. -/
structure BridgeConfig where
  ipAddress : Option String
  id : String
  username : String
  selfSignedCertificate : Option String
deriving DecidableEq, Repr

/-- The three errors `checkServerIdentity` can throw, in source order. -/
inductive ServerIdentityError where
  | subjectCnMismatch
  | issuerCnNotRootBridge
  | issuerCnNotBridgeId
deriving DecidableEq, Repr

/-- The exact messages thrown by the `checkServerIdentity` callback of
`createHueClient.ts`. -/
def ServerIdentityError.message : ServerIdentityError → String
  | .subjectCnMismatch =>
    "Server identity check failed. Certificate subject’s Common Name does not match the Bridge ID."
  | .issuerCnNotRootBridge =>
    "Server identity check failed. Certificate issuer’s Common Name does not match the expected value."
  | .issuerCnNotBridgeId =>
    "Server identity check failed. Certificate issuer’s Common Name does not match the Bridge ID."

/-- The `checkServerIdentity` callback of `createHueClient.ts`, lines 40–59:
three inline checks, each throwing on failure; `undefined` (here `.ok ()`)
signals success. -/
def checkServerIdentity (bridgeConfig : BridgeConfig)
    (cert : PeerCertificate) : Except ServerIdentityError Unit :=
  if cert.subject.CN != bridgeConfig.id then
    .error .subjectCnMismatch
  else if bridgeConfig.selfSignedCertificate == none && cert.issuer.CN != "root-bridge" then
    .error .issuerCnNotRootBridge
  else if bridgeConfig.selfSignedCertificate != none && cert.issuer.CN != bridgeConfig.id then
    .error .issuerCnNotBridgeId
  else
    .ok ()

/-- An error of the certificate check the spec describes for the handshake:
a `CertificateValidator` failure, or the spec's `PinMismatch`. -/
inductive PinnedValidateError where
  | certificateError (e : ValidateError)
  | pinMismatch
deriving DecidableEq, Repr

/-- Modelled from the spec: the certificate validation the spec says the
handshake delegates to — `CertificateValidator` run for `config.id`
(rules 1–3, which in the source are `validateBridgeCertificate`) followed by
the pin rule 4, which exists only in the spec: when a pinned certificate
exists, the issuer common name must equal the Bridge id, otherwise
`PinMismatch`. -/
def validateWithPin (bridgeConfig : BridgeConfig)
    (cert : PeerCertificate) : Except PinnedValidateError Unit :=
  match validateBridgeCertificate cert (some bridgeConfig.id) with
  | .error e => .error (.certificateError e)
  | .ok () =>
    if bridgeConfig.selfSignedCertificate != none && cert.issuer.CN != bridgeConfig.id then
      .error .pinMismatch
    else
      .ok ()

/-! ### PEM encoding (`createPemString` in `hueNetworking.ts`) -/

/-- The base64 alphabet. -/
def base64Table : List Char :=
  "ABCDEFGHIJKLMNOPQRSTUVWXYZabcdefghijklmnopqrstuvwxyz0123456789+/".data

/-- Character for a 6-bit value. -/
def b64Char (n : Nat) : Char :=
  base64Table.getD n 'A'

/-- Standard base64 of a byte list (values 0–255), with `=` padding, as
produced by `Buffer.prototype.toString("base64")`. -/
def base64Encode : List Nat → String
  | a :: b :: c :: rest =>
    let n := (a % 256) * 65536 + (b % 256) * 256 + (c % 256)
    String.mk [b64Char (n / 262144), b64Char (n / 4096 % 64),
      b64Char (n / 64 % 64), b64Char (n % 64)] ++ base64Encode rest
  | [a, b] =>
    let n := (a % 256) * 65536 + (b % 256) * 256
    String.mk [b64Char (n / 262144), b64Char (n / 4096 % 64),
      b64Char (n / 64 % 64)] ++ "="
  | [a] =>
    let n := (a % 256) * 65536
    String.mk [b64Char (n / 262144), b64Char (n / 4096 % 64)] ++ "=="
  | [] => ""

/-- Fuel-driven worker for `insertNewlinesChars`; the fuel bounds the number
of 64-character chunks and is consumed once per chunk, so starting it with
the input's length always suffices. -/
def insertNewlinesAux : Nat → List Char → List Char
  | 0, cs => cs
  | fuel + 1, cs =>
    if cs.length < 64 then cs
    else cs.take 64 ++ '\n' :: insertNewlinesAux fuel (cs.drop 64)

/-- The global regex replace `str.replace(/(.{64})/g, "$1\n")` used by
`createPemString`: a newline is appended after every full 64-character run;
a final run shorter than 64 characters is left without a newline. -/
def insertNewlinesChars (cs : List Char) : List Char :=
  insertNewlinesAux cs.length cs

/-- `createPemString` from `hueNetworking.ts`, lines 215–222. -/
def createPemString (cert : PeerCertificate) : String :=
  let base64 := base64Encode cert.raw
  "-----BEGIN CERTIFICATE-----\n" ++
    String.mk (insertNewlinesChars base64.data) ++
    "-----END CERTIFICATE-----\n"

/-! ### The pairing exchange (`getUsernameFromBridge` in `hueNetworking.ts`)
and `getBridgeConfig.ts` -/

/-- One element of the Bridge's pairing response array: an `error` object
carrying a `description`, or a `success` object carrying a `username`.  The
fields model `response.error?.description` and `response.success?.username`. -/
structure LinkResponse where
  error : Option String
  success : Option String
deriving DecidableEq, Repr

/-- How the promise inside `getUsernameFromBridge` settles: rejected with a
message, resolved with a username, or (when the response carries neither a
truthy error description nor a success object) never settled. -/
inductive LinkOutcome where
  | rejected (message : String)
  | resolved (username : String)
  | pending
deriving DecidableEq, Repr

/-- The spec's taxonomy for Bridge-reported pairing errors. -/
inductive LinkErrorSpec where
  | LinkNotReady
  | LinkRejected (message : String)
deriving DecidableEq, Repr

/-- Modelled from the spec: how the spec says a Bridge-reported pairing
error surfaces — `link button not pressed` as the distinct retryable
LinkNotReady, any other error as LinkRejected carrying the Bridge's
message, capitalized for display.  This definition exists to be compared
with `getUsernameFromBridgeResult`, the code's actual handling. -/
def linkErrorSpec (description : String) : LinkErrorSpec :=
  if description == "link button not pressed" then .LinkNotReady
  else .LinkRejected (jsCapitalize description)

/-- The response handling of `getUsernameFromBridge` (`hueNetworking.ts`,
lines 157–172): a non-200 status rejects with the quoted message; a truthy
error description rejects with the description, first character
upper-cased; a success object resolves with its username. -/
def getUsernameFromBridgeResult (statusCode : Nat)
    (response : LinkResponse) : LinkOutcome :=
  if statusCode ≠ 200 then
    .rejected ("Unexpected status code from Hue Bridge: " ++ toString statusCode)
  else if jsTruthy response.error then
    .rejected (jsCapitalize (response.error.getD ""))
  else
    match response.success with
    | some username => .resolved username
    | none => .pending

/-- A failure of `getBridgeConfig`: the certificate fetched by
`getCertificate` failed validation, or the pairing POST was rejected, or the
pairing response never settled the promise. -/
inductive GetBridgeConfigError where
  | certificateError (e : ValidateError)
  | pairingRejected (message : String)
  | pairingNeverSettled
deriving DecidableEq, Repr

/-- `getBridgeConfig` from `getBridgeConfig.ts`.  The certificate fetched by
`getCertificate` is a parameter, as is the pairing exchange's result (used
only when no truthy `bridgeUsername` is supplied).  `getCertificate` rejects
unless `validateBridgeCertificate` passes, so that validation guards the
whole function.  The returned flag records whether the pairing POST was
issued. -/
def getBridgeConfigResult (bridgeIpAddress : String) (bridgeId : Option String)
    (bridgeUsername : Option String) (bridgeCertificate : PeerCertificate)
    (pairing : LinkOutcome) : Except GetBridgeConfigError (BridgeConfig × Bool) :=
  match validateBridgeCertificate bridgeCertificate bridgeId with
  | .error e => .error (.certificateError e)
  | .ok () =>
    let isSelfSigned := bridgeCertificate.subject.CN == bridgeCertificate.issuer.CN
    let pemString := createPemString bridgeCertificate
    let id := if jsTruthy bridgeId then bridgeId.getD ""
      else bridgeCertificate.subject.CN
    let pinned := if isSelfSigned then some pemString else none
    if jsTruthy bridgeUsername then
      .ok (⟨some bridgeIpAddress, id, bridgeUsername.getD "", pinned⟩, false)
    else
      match pairing with
      | .resolved username => .ok (⟨some bridgeIpAddress, id, username, pinned⟩, true)
      | .rejected message => .error (.pairingRejected message)
      | .pending => .error .pairingNeverSettled

/-! ### The secure session (`createHueClient.ts`) -/

/-- The connect timeout passed to `session.setTimeout`. -/
def CONNECTION_TIMEOUT_MS : Nat := 5000

/-- The URL authority `createHueClient` connects to: the Bridge id is used
as the hostname, never the IP literal. -/
def connectAuthority (bridgeConfig : BridgeConfig) : String :=
  "https://" ++ bridgeConfig.id

/-- What the `lookup` hook passed to `http2.connect` does with a hostname:
answer the callback with an address and family, or fall back to
`dns.lookup`. -/
inductive LookupResult where
  | resolved (address : String) (family : Nat)
  | dnsFallback (hostname : String)
deriving DecidableEq, Repr

/-- The `lookup` option of `createHueClient.ts`, lines 60–68: when
`ipAddress` is defined and the lower-cased hostname equals the Bridge id,
the callback is answered with that IP address and family 4; otherwise the
default DNS lookup runs. -/
def lookup (bridgeConfig : BridgeConfig) (hostname : String) : LookupResult :=
  match bridgeConfig.ipAddress with
  | some ip =>
    if jsToLowerCase hostname == bridgeConfig.id then .resolved ip 4
    else .dnsFallback hostname
  | none => .dnsFallback hostname

/-- The authenticated liveness request issued once the session connects
(`createHueClient.ts`, lines 77–82). -/
structure Http2Request where
  method : String
  path : String
  hueApplicationKey : String
  sensitive : List String
deriving DecidableEq, Repr

/-- The one request `createHueClient` issues after the `connect` event,
carrying the username as the sensitive `hue-application-key` header. -/
def authCheckRequest (bridgeConfig : BridgeConfig) : Http2Request :=
  ⟨"GET", "/clip/v2/resource/bridge", bridgeConfig.username,
    ["hue-application-key"]⟩

/-- One live authenticated session as wrapped by `HueClient`. -/
structure HueClient where
  bridgeConfig : BridgeConfig
deriving DecidableEq, Repr

/-- How the connection attempt inside `createHueClient` plays out: the
5-second timer fires first, the socket errors, or the session connects and
the liveness request comes back with an HTTP status. -/
inductive ConnectOutcome where
  | timeout
  | socketError (message : String)
  | connected (status : Nat)
deriving DecidableEq, Repr

/-- The rejections of the `createHueClient` promise. -/
inductive ConnectError where
  | timeout
  | socketError (message : String)
  | invalidCredentials
  | unexpectedStatus (status : Nat)
deriving DecidableEq, Repr

/-- The exact rejection values used by `createHueClient.ts`. -/
def ConnectError.message : ConnectError → String
  | .timeout => "Connection timed out."
  | .socketError message => message
  | .invalidCredentials => "Please check your username."
  | .unexpectedStatus status => "Status code: " ++ toString status

/-- The promise of `createHueClient.ts`, lines 20–97: a timeout rejects; a
session error rejects with its message; on connect, status 403 of the
liveness request rejects (invalid credentials), any other status besides 200
rejects with the status, and 200 resolves the session, which is then
wrapped in a `HueClient`. -/
def createHueClientResult (bridgeConfig : BridgeConfig)
    (outcome : ConnectOutcome) : Except ConnectError HueClient :=
  match outcome with
  | .timeout => .error .timeout
  | .socketError message => .error (.socketError message)
  | .connected status =>
    if status == 403 then .error .invalidCredentials
    else if status != 200 then .error (.unexpectedStatus status)
    else .ok ⟨bridgeConfig⟩

/-! ### Preference loading (`hueBridgeMachine.ts`, `loadPreferences`) -/

/-- The extension preferences the machine reads: an optional Bridge IP
address override and an optional username override. -/
structure Preferences where
  bridgeIpAddress : Option String
  bridgeUsername : Option String
deriving DecidableEq, Repr

/-- The `loadPreferences` actor (`hueBridgeMachine.ts`, lines 313–334): it
throws iff the IP-address override is truthy and `net.isIP` classifies it
as neither IPv4 nor IPv6, and otherwise returns both overrides. -/
def loadPreferencesResult (preferences : Preferences) :
    Except String (Option String × Option String) :=
  if jsTruthy preferences.bridgeIpAddress &&
      netIsIP (preferences.bridgeIpAddress.getD "") == 0 then
    .error "Bridge IP address is not a valid IPv4 address"
  else
    .ok (preferences.bridgeIpAddress, preferences.bridgeUsername)

/-! ### Local discovery (`discoverBridgeUsingMdns` in `hueNetworking.ts`) -/

/-- A service announcement as delivered by the `bonjour-service` browser:
the advertised addresses and the `bridgeid` text attribute. -/
structure MDnsService where
  addresses : List String
  bridgeid : String
deriving DecidableEq, Repr

/-- The events that can reach the promise executor of
`discoverBridgeUsingMdns`: a service coming up, a service going down, and
the 10-second timer firing. -/
inductive MdnsEvent where
  | up (service : MDnsService)
  | down
  | timerFires
deriving DecidableEq, Repr

/-- The rejection message used by every failure path of
`discoverBridgeUsingMdns`. -/
def mdnsFailureMsg : String := "Could not find a Hue Bridge using mDNS"

/-- The overall mDNS timeout in milliseconds. -/
def MDNS_TIMEOUT_MS : Nat := 10000

/-- The observable state of one run of `discoverBridgeUsingMdns`: whether
and how the promise has settled, and whether `browser.stop()` has been
called. -/
structure MdnsRun where
  settled : Option (Except String (String × String))
  stopped : Bool
deriving DecidableEq, Repr

/-- What a single event settles the promise with (a promise settles only
once, so this applies only while `settled` is `none`).  An `up` event
resolves with the first IPv4 address and the `bridgeid` text record, or
rejects when no IPv4 address is advertised; `down` rejects; the timer
rejects. -/
def mdnsSettleValue : MdnsEvent → Except String (String × String)
  | .up service =>
    match service.addresses.find? isIPv4 with
    | some ipAddress => .ok (ipAddress, service.bridgeid)
    | none => .error mdnsFailureMsg
  | .down => .error mdnsFailureMsg
  | .timerFires => .error mdnsFailureMsg

/-- One event processed by the handlers of `discoverBridgeUsingMdns`: the
first settling event fixes the result; `browser.stop()` is called only in
the timer callback (`hueNetworking.ts`, lines 83–86) — the `up` and `down`
handlers never stop the browser. -/
def mdnsStep (r : MdnsRun) (e : MdnsEvent) : MdnsRun :=
  { settled := match r.settled with
      | some v => some v
      | none => some (mdnsSettleValue e)
    stopped := r.stopped || e == .timerFires }

/-- A whole run of `discoverBridgeUsingMdns` over a sequence of events,
starting unsettled with a live browser. -/
def mdnsRun (events : List MdnsEvent) : MdnsRun :=
  events.foldl mdnsStep ⟨none, false⟩

/-! ### The orchestrating state machine (`hueBridgeMachine.ts`) -/

/-- The states of the `manage-hue-bridge` machine, with the source's state
names. -/
inductive MachineState where
  | loadingPreferences
  | failedToLoadPreferences
  | loadingConfiguration
  | connecting
  | connected
  | failedToConnect
  | discoveringUsingPublicApi
  | discoveringUsingMdns
  | noBridgeFound
  | linkWithBridge
  | linking
  | failedToLink
  | linked
  | unlinking
deriving DecidableEq, Repr

/-- The external events the machine handles.  `useHueBridgeMachine`
upper-cases the dispatched message, so these stand for the machine's
`RETRY`, `LINK`, `UNLINK` and `DONE` event types. -/
inductive HueEvent where
  | retry
  | link
  | unlink
  | done
deriving DecidableEq, Repr

/-- The machine's context (`HueContext` in `hueBridgeMachine.ts`). -/
structure HueContext where
  bridgeIpAddress : Option String
  bridgeUsername : Option String
  bridgeId : Option String
  bridgeConfig : Option BridgeConfig
  hueClient : Option HueClient
deriving DecidableEq, Repr

/-- An input the machine reacts to: an external event, or the completion
(`onDone`/`onError` in the source; `saveDone`, `unlinkDone` for the two
actors invoked without an `onDone` target) of one of the invoked actors,
carrying its output. -/
inductive MachineInput where
  | event (e : HueEvent)
  | prefsDone (bridgeIpAddress : Option String) (bridgeUsername : Option String)
  | prefsError
  | configDone (bridgeConfig : Option BridgeConfig)
  | connectDone (client : HueClient)
  | connectError
  | publicApiDone (ipAddress : String) (id : String)
  | publicApiError
  | mdnsDone (ipAddress : String) (id : String)
  | mdnsError
  | linkingDone (bridgeConfig : BridgeConfig) (client : HueClient)
  | linkingError
  | saveDone
  | unlinkDone
deriving DecidableEq, Repr

/-- The complete machine configuration: current state, context, and the
`LocalStorage` slot holding the persisted `BridgeConfig` (written by
`saveBridgeConfigToLocalStorage`, cleared by `unlinkBridge`). -/
structure Machine where
  state : MachineState
  context : HueContext
  storage : Option BridgeConfig
deriving DecidableEq, Repr

/-- One transition of the `manage-hue-bridge` machine, read off
`hueBridgeMachine.ts`.  `connected` is declared `type: "final"` at the top
level (lines 139–141), so on entering it the machine is done and the actor
drops every event dispatched afterwards — external events are therefore
no-ops in `connected`.  Elsewhere: the root-level `UNLINK` handler targets
`unlinking`; `RETRY` is handled in `failedToConnect`, `noBridgeFound` and
`failedToLink`; `LINK` in `linkWithBridge`; `DONE` in `linked`.  Actor
completions apply only in the state that invoked the actor and perform that
transition's `assign` actions; completing `saveBridgeConfigToLocalStorage`
writes the storage slot but has no `onDone` transition, and completing
`unlinkBridge` clears the storage slot and branches on the freshly read
preferences.  Every other combination leaves the machine unchanged. -/
def step (preferences : Preferences) (m : Machine) (input : MachineInput) :
    Machine :=
  match input with
  | .event e =>
    if m.state = .connected then m
    else
      match e with
      | .unlink => { m with state := .unlinking }
      | .retry =>
        match m.state with
        | .failedToConnect => { m with state := .connecting }
        | .noBridgeFound => { m with state := .discoveringUsingPublicApi }
        | .failedToLink => { m with state := .linking }
        | _ => m
      | .link =>
        match m.state with
        | .linkWithBridge => { m with state := .linking }
        | _ => m
      | .done =>
        match m.state with
        | .linked => { m with state := .connecting }
        | _ => m
  | .prefsDone ip username =>
    match m.state with
    | .loadingPreferences =>
      { m with state := .loadingConfiguration
               context := { m.context with bridgeIpAddress := ip
                                           bridgeUsername := username } }
    | _ => m
  | .prefsError =>
    match m.state with
    | .loadingPreferences => { m with state := .failedToLoadPreferences }
    | _ => m
  | .configDone bridgeConfig =>
    match m.state with
    | .loadingConfiguration =>
      match bridgeConfig with
      | some c =>
        { m with state := .connecting
                 context := { m.context with bridgeConfig := some c } }
      | none =>
        if jsTruthy m.context.bridgeIpAddress then { m with state := .linking }
        else { m with state := .discoveringUsingPublicApi }
    | _ => m
  | .connectDone client =>
    match m.state with
    | .connecting =>
      { m with state := .connected
               context := { m.context with hueClient := some client } }
    | _ => m
  | .connectError =>
    match m.state with
    | .connecting => { m with state := .failedToConnect }
    | _ => m
  | .publicApiDone ipAddress id =>
    match m.state with
    | .discoveringUsingPublicApi =>
      { m with state := if jsTruthy m.context.bridgeUsername then .linking
                 else .linkWithBridge
               context := { m.context with bridgeIpAddress := some ipAddress
                                           bridgeId := some id } }
    | _ => m
  | .publicApiError =>
    match m.state with
    | .discoveringUsingPublicApi => { m with state := .discoveringUsingMdns }
    | _ => m
  | .mdnsDone ipAddress id =>
    match m.state with
    | .discoveringUsingMdns =>
      { m with state := if jsTruthy m.context.bridgeUsername then .linking
                 else .linkWithBridge
               context := { m.context with bridgeIpAddress := some ipAddress
                                           bridgeId := some id } }
    | _ => m
  | .mdnsError =>
    match m.state with
    | .discoveringUsingMdns => { m with state := .noBridgeFound }
    | _ => m
  | .linkingDone bridgeConfig client =>
    match m.state with
    | .linking =>
      { m with state := .linked
               context := { m.context with bridgeConfig := some bridgeConfig
                                           hueClient := some client } }
    | _ => m
  | .linkingError =>
    match m.state with
    | .linking => { m with state := .failedToLink }
    | _ => m
  | .saveDone =>
    match m.state with
    | .linked =>
      { m with storage := match m.context.bridgeConfig with
          | some c => some c
          | none => m.storage }
    | _ => m
  | .unlinkDone =>
    match m.state with
    | .unlinking =>
      if jsTruthy preferences.bridgeIpAddress then
        { state := .linking
          context := { m.context with bridgeUsername := preferences.bridgeUsername
                                      bridgeId := none
                                      bridgeConfig := none }
          storage := none }
      else
        { state := .discoveringUsingPublicApi
          context := { m.context with bridgeIpAddress := none
                                      bridgeUsername := preferences.bridgeUsername
                                      bridgeId := none
                                      bridgeConfig := none }
          storage := none }
    | _ => m

/-! ## Shared helper lemmas -/

/-- Success characterization of `validateBridgeCertificate`: the subject CN
is 16 hexadecimal characters, `bridgeId` is known and exactly equal to it,
and the certificate is self-signed or issued by `root-bridge`. -/
theorem validateBridgeCertificate_ok_iff (cert : PeerCertificate)
    (bridgeId : Option String) :
    validateBridgeCertificate cert bridgeId = .ok () ↔
      isHex16 cert.subject.CN = true ∧ bridgeId = some cert.subject.CN ∧
        (cert.issuer.CN = cert.subject.CN ∨ cert.issuer.CN = "root-bridge") := by
  unfold validateBridgeCertificate
  cases bridgeId with
  | none => cases h1 : isHex16 cert.subject.CN <;> simp_all
  | some b =>
    cases h1 : isHex16 cert.subject.CN <;>
      rcases eq_or_ne cert.subject.CN b with h2 | h2 <;>
      rcases eq_or_ne cert.subject.CN cert.issuer.CN with h3 | h3 <;>
      rcases eq_or_ne cert.issuer.CN "root-bridge" with h4 | h4 <;>
      simp_all <;> tauto

/-- Success characterization of the spec-modelled `validateWithPin`: the
source validation passes for the Bridge id and the pin rule holds. -/
theorem validateWithPin_ok_iff (bridgeConfig : BridgeConfig)
    (cert : PeerCertificate) :
    validateWithPin bridgeConfig cert = .ok () ↔
      validateBridgeCertificate cert (some bridgeConfig.id) = .ok () ∧
        (bridgeConfig.selfSignedCertificate = none ∨
          cert.issuer.CN = bridgeConfig.id) := by
  unfold validateWithPin
  cases hv : validateBridgeCertificate cert (some bridgeConfig.id) with
  | error e => simp
  | ok u =>
    cases u
    cases hp : bridgeConfig.selfSignedCertificate <;>
      rcases eq_or_ne cert.issuer.CN bridgeConfig.id with h | h <;> simp_all

/-- The settled value of an mDNS run started from an arbitrary intermediate
state: once settled a promise keeps its value; otherwise the remaining
events settle it exactly as a fresh run would. -/
theorem mdnsFoldl_settled (events : List MdnsEvent) (r : MdnsRun) :
    (events.foldl mdnsStep r).settled =
      r.settled.orElse (fun _ => (mdnsRun events).settled) := by
  induction events generalizing r with
  | nil => cases hr : r.settled <;> simp [mdnsRun, Option.orElse, hr]
  | cons e es ih =>
    simp only [List.foldl_cons, mdnsRun] at *
    rw [ih (mdnsStep r e), ih (mdnsStep ⟨none, false⟩ e)]
    cases hr : r.settled <;> simp [mdnsStep, hr, Option.orElse]

/-- The browser is stopped after a run iff it was stopped already or some
processed event was the timer firing. -/
theorem mdnsFoldl_stopped (events : List MdnsEvent) (r : MdnsRun) :
    (events.foldl mdnsStep r).stopped =
      (r.stopped || events.any (· == .timerFires)) := by
  induction events generalizing r with
  | nil => simp
  | cons e es ih =>
    simp only [List.foldl_cons, List.any_cons]
    rw [ih (mdnsStep r e)]
    simp [mdnsStep, Bool.or_assoc]

/-! ## Claim C1 — certificate validation rules -/

/-- Claim C1, counterexample: the claim says the identity rule compares
case-insensitively and applies only when `expectedId` is known.  On the
self-signed certificate whose CN is `ABCDEF0123456789` with expected id
`abcdef0123456789`, the claim (as captured by `validateCertificateSpec`)
yields ok, but the code throws the subject-CN mismatch; and with no
expected id at all, the code still throws that mismatch while the claim
yields ok. -/
theorem validate_case_sensitivity_counterexample :
    validateBridgeCertificate ⟨⟨"ABCDEF0123456789"⟩, ⟨"ABCDEF0123456789"⟩, []⟩
        (some "abcdef0123456789") = .error .subjectCnMismatch
    ∧ validateCertificateSpec ⟨⟨"ABCDEF0123456789"⟩, ⟨"ABCDEF0123456789"⟩, []⟩
        (some "abcdef0123456789") = .ok ()
    ∧ validateBridgeCertificate ⟨⟨"abcdef0123456789"⟩, ⟨"abcdef0123456789"⟩, []⟩
        none = .error .subjectCnMismatch
    ∧ validateCertificateSpec ⟨⟨"abcdef0123456789"⟩, ⟨"abcdef0123456789"⟩, []⟩
        none = .ok () := by decide

/-- Claim C1 (amended): `validateBridgeCertificate` applies its rules in
order and returns the first failing rule's error — MalformedIdentity
(`cnNotValidBridgeId`) when the subject CN is not 16 hexadecimal
characters; IdentityMismatch (`subjectCnMismatch`) when `bridgeId` is not
exactly (case-sensitively) the subject CN, this rule applying also when
`bridgeId` is unknown, in which case it always fails; UntrustedIssuer
(`issuerCnMismatch`) when the certificate is neither self-signed nor issued
by `root-bridge`; and ok when all three pass. -/
theorem validate_rules_characterization (cert : PeerCertificate)
    (bridgeId : Option String) :
    (validateBridgeCertificate cert bridgeId
        = .error (.cnNotValidBridgeId cert.subject.CN)
      ↔ isHex16 cert.subject.CN = false)
    ∧ (validateBridgeCertificate cert bridgeId = .error .subjectCnMismatch
      ↔ isHex16 cert.subject.CN = true ∧ bridgeId ≠ some cert.subject.CN)
    ∧ (validateBridgeCertificate cert bridgeId = .error .issuerCnMismatch
      ↔ isHex16 cert.subject.CN = true ∧ bridgeId = some cert.subject.CN ∧
          cert.issuer.CN ≠ cert.subject.CN ∧ cert.issuer.CN ≠ "root-bridge")
    ∧ (validateBridgeCertificate cert bridgeId = .ok ()
      ↔ isHex16 cert.subject.CN = true ∧ bridgeId = some cert.subject.CN ∧
          (cert.issuer.CN = cert.subject.CN ∨ cert.issuer.CN = "root-bridge")) := by
  unfold validateBridgeCertificate
  cases bridgeId with
  | none =>
    cases h1 : isHex16 cert.subject.CN <;> simp_all
  | some b =>
    cases h1 : isHex16 cert.subject.CN <;>
      rcases eq_or_ne cert.subject.CN b with h2 | h2 <;>
      rcases eq_or_ne cert.subject.CN cert.issuer.CN with h3 | h3 <;>
      rcases eq_or_ne cert.issuer.CN "root-bridge" with h4 | h4 <;>
      simp_all <;> tauto

/-! ## Claim C2 — the handshake's certificate check versus the validator -/

/-- Claim C2, counterexample: the two checks are not equivalent.  An
unpinned configuration with a well-formed self-signed certificate is
accepted by the validator (rule 3a) but rejected by the handshake check,
which demands the `root-bridge` issuer whenever no certificate is pinned;
conversely a certificate whose CN is not 16 hexadecimal characters passes
the handshake check (which never applies the format rule) but fails the
validator. -/
theorem handshake_vs_validator_counterexample :
    checkServerIdentity ⟨some "192.168.1.2", "abcdef0123456789", "user", none⟩
        ⟨⟨"abcdef0123456789"⟩, ⟨"abcdef0123456789"⟩, []⟩
      = .error .issuerCnNotRootBridge
    ∧ validateWithPin ⟨some "192.168.1.2", "abcdef0123456789", "user", none⟩
        ⟨⟨"abcdef0123456789"⟩, ⟨"abcdef0123456789"⟩, []⟩ = .ok ()
    ∧ checkServerIdentity ⟨some "192.168.1.2", "not-a-hex-id", "user", none⟩
        ⟨⟨"not-a-hex-id"⟩, ⟨"root-bridge"⟩, []⟩ = .ok ()
    ∧ validateWithPin ⟨some "192.168.1.2", "not-a-hex-id", "user", none⟩
        ⟨⟨"not-a-hex-id"⟩, ⟨"root-bridge"⟩, []⟩
      = .error (.certificateError (.cnNotValidBridgeId "not-a-hex-id")) := by decide

/-- Claim C2 (amended): the handshake's certificate check is an inline
check — it accepts exactly the certificates whose subject CN equals
`config.id` and whose issuer CN equals `config.id` when a pinned
certificate exists and `root-bridge` otherwise; it agrees with
`CertificateValidator` plus the pin rule in the pinned case whenever
`config.id` is 16 hexadecimal characters, but is not equivalent to it in
general. -/
theorem handshake_identity_characterization (bridgeConfig : BridgeConfig)
    (cert : PeerCertificate) :
    (checkServerIdentity bridgeConfig cert = .ok ()
      ↔ cert.subject.CN = bridgeConfig.id ∧
          (match bridgeConfig.selfSignedCertificate with
           | some _ => cert.issuer.CN = bridgeConfig.id
           | none => cert.issuer.CN = "root-bridge"))
    ∧ (isHex16 bridgeConfig.id = true →
        bridgeConfig.selfSignedCertificate.isSome = true →
        (checkServerIdentity bridgeConfig cert = .ok ()
          ↔ validateWithPin bridgeConfig cert = .ok ())) := by
  have hfirst : checkServerIdentity bridgeConfig cert = .ok ()
      ↔ cert.subject.CN = bridgeConfig.id ∧
          (match bridgeConfig.selfSignedCertificate with
           | some _ => cert.issuer.CN = bridgeConfig.id
           | none => cert.issuer.CN = "root-bridge") := by
    unfold checkServerIdentity
    cases hp : bridgeConfig.selfSignedCertificate with
    | none =>
      rcases eq_or_ne cert.subject.CN bridgeConfig.id with h1 | h1 <;>
        rcases eq_or_ne cert.issuer.CN "root-bridge" with h2 | h2 <;> simp_all
    | some pem =>
      rcases eq_or_ne cert.subject.CN bridgeConfig.id with h1 | h1 <;>
        rcases eq_or_ne cert.issuer.CN bridgeConfig.id with h2 | h2 <;> simp_all
  refine ⟨hfirst, fun hx hpin => ?_⟩
  rw [hfirst, validateWithPin_ok_iff, validateBridgeCertificate_ok_iff]
  cases hp : bridgeConfig.selfSignedCertificate with
  | none => simp_all
  | some pem =>
    simp only [hp]
    constructor
    · rintro ⟨h1, h2⟩
      exact ⟨⟨h1 ▸ hx, by rw [h1], Or.inl (h2.trans h1.symm)⟩, Or.inr h2⟩
    · rintro ⟨⟨hhex, hid, hiss⟩, hpin2⟩
      have h1 : cert.subject.CN = bridgeConfig.id := by
        injection hid with hid2
        exact hid2.symm
      rcases hpin2 with hbad | h2
      · exact absurd hbad (by simp)
      · exact ⟨h1, h2⟩

/-- Witness for `handshake_identity_characterization` at a pinned
configuration with a 16-hexadecimal id. -/
theorem handshake_identity_witness :
    (checkServerIdentity
        ⟨some "192.168.1.2", "abcdef0123456789", "user", some "PEM"⟩
        ⟨⟨"abcdef0123456789"⟩, ⟨"abcdef0123456789"⟩, []⟩ = .ok ())
      ↔ (validateWithPin
        ⟨some "192.168.1.2", "abcdef0123456789", "user", some "PEM"⟩
        ⟨⟨"abcdef0123456789"⟩, ⟨"abcdef0123456789"⟩, []⟩ = .ok ()) :=
  (handshake_identity_characterization
    ⟨some "192.168.1.2", "abcdef0123456789", "user", some "PEM"⟩
    ⟨⟨"abcdef0123456789"⟩, ⟨"abcdef0123456789"⟩, []⟩).2 (by decide) (by decide)

/-! ## Claim C3 — the `linked` state needs an external `DONE` event -/

/-- Claim C3, counterexample: with the persisted-save actor completing
successfully in `linked` (the storage slot is written), the machine stays
in `linked` — it does not transition to `connecting` as the claim says. -/
theorem linked_saveDone_counterexample :
    step ⟨none, none⟩
        ⟨.linked,
         ⟨some "192.168.1.2", some "user", some "abcdef0123456789",
          some ⟨some "192.168.1.2", "abcdef0123456789", "user", none⟩, none⟩,
         none⟩
        .saveDone
      = ⟨.linked,
         ⟨some "192.168.1.2", some "user", some "abcdef0123456789",
          some ⟨some "192.168.1.2", "abcdef0123456789", "user", none⟩, none⟩,
         some ⟨some "192.168.1.2", "abcdef0123456789", "user", none⟩⟩ := by decide

/-- Claim C3 (amended): completion of the persistence actor in `linked`
triggers no transition (the invoke has no `onDone`); `linked` transitions
to `connecting` only on the external `DONE` event, so the machine accepts
`done` in addition to `retry`, `link` and `unlink`. -/
theorem linked_requires_done_event (p : Preferences) (ctx : HueContext)
    (st : Option BridgeConfig) :
    (step p ⟨.linked, ctx, st⟩ .saveDone).state = .linked
    ∧ step p ⟨.linked, ctx, st⟩ (.event .done) = ⟨.connecting, ctx, st⟩ :=
  ⟨rfl, rfl⟩

/-! ## Claim C4 — connect timeout, credential check and status handling -/

/-- Claim C4: the connect timeout is 5000 ms and expiry rejects with
Timeout; the one liveness request carries `config.username` as the
sensitive `hue-application-key` header; a 403 status — and only a 403 —
rejects with InvalidCredentials; any other status besides 200 rejects with
UnexpectedStatus carrying the code; and a `HueClient` session handle is
returned only on a 200 response. -/
theorem connect_check_characterization (bridgeConfig : BridgeConfig) :
    CONNECTION_TIMEOUT_MS = 5000
    ∧ (authCheckRequest bridgeConfig).hueApplicationKey = bridgeConfig.username
    ∧ (authCheckRequest bridgeConfig).sensitive = ["hue-application-key"]
    ∧ createHueClientResult bridgeConfig .timeout = .error .timeout
    ∧ (∀ status, createHueClientResult bridgeConfig (.connected status)
        = .error .invalidCredentials ↔ status = 403)
    ∧ (∀ status, status ≠ 403 → status ≠ 200 →
        createHueClientResult bridgeConfig (.connected status)
          = .error (.unexpectedStatus status))
    ∧ (∀ outcome client,
        createHueClientResult bridgeConfig outcome = .ok client →
        outcome = .connected 200 ∧ client = ⟨bridgeConfig⟩) := by
  refine ⟨rfl, rfl, rfl, rfl, ?_, ?_, ?_⟩
  · intro status
    rcases eq_or_ne status 403 with h | h <;>
      rcases eq_or_ne status 200 with h2 | h2 <;>
      simp_all [createHueClientResult]
  · intro status h h2
    simp [createHueClientResult, h, h2]
  · intro outcome client hok
    cases outcome with
    | timeout => exact absurd hok (by simp [createHueClientResult])
    | socketError m => exact absurd hok (by simp [createHueClientResult])
    | connected status =>
      rcases eq_or_ne status 403 with h | h <;>
        rcases eq_or_ne status 200 with h2 | h2 <;>
        simp_all [createHueClientResult]

/-- Witness for `connect_check_characterization` on statuses 500 and 403. -/
theorem connect_check_witness :
    createHueClientResult ⟨some "192.168.1.2", "abcdef0123456789", "user", none⟩
        (.connected 500) = .error (.unexpectedStatus 500)
    ∧ createHueClientResult ⟨some "192.168.1.2", "abcdef0123456789", "user", none⟩
        (.connected 403) = .error .invalidCredentials := by
  have h := connect_check_characterization
    ⟨some "192.168.1.2", "abcdef0123456789", "user", none⟩
  exact ⟨h.2.2.2.2.2.1 500 (by decide) (by decide), (h.2.2.2.2.1 403).mpr rfl⟩

/-! ## Claim C5 — the unlink path -/

/-- Claim C5, counterexample: the claim fails at two points.  Dispatching
`unlink` while in `connected` is a no-op — `connected` is a top-level final
state, the machine is done there and the dropped event causes no transition
to `unlinking`.  And completing the unlink actor clears storage and routes
onward, but the live session handle (`hueClient`) is left in the context
untouched — it is not invalidated as the claim says. -/
theorem unlinking_keeps_hueClient_counterexample :
    step ⟨none, none⟩
        ⟨.connected,
         ⟨some "192.168.1.2", some "user", some "abcdef0123456789",
          some ⟨some "192.168.1.2", "abcdef0123456789", "user", none⟩,
          some ⟨⟨some "192.168.1.2", "abcdef0123456789", "user", none⟩⟩⟩,
         some ⟨some "192.168.1.2", "abcdef0123456789", "user", none⟩⟩
        (.event .unlink)
      = ⟨.connected,
         ⟨some "192.168.1.2", some "user", some "abcdef0123456789",
          some ⟨some "192.168.1.2", "abcdef0123456789", "user", none⟩,
          some ⟨⟨some "192.168.1.2", "abcdef0123456789", "user", none⟩⟩⟩,
         some ⟨some "192.168.1.2", "abcdef0123456789", "user", none⟩⟩
    ∧ step ⟨none, none⟩
        ⟨.unlinking,
         ⟨some "192.168.1.2", some "user", some "abcdef0123456789",
          some ⟨some "192.168.1.2", "abcdef0123456789", "user", none⟩,
          some ⟨⟨some "192.168.1.2", "abcdef0123456789", "user", none⟩⟩⟩,
         some ⟨some "192.168.1.2", "abcdef0123456789", "user", none⟩⟩
        .unlinkDone
      = ⟨.discoveringUsingPublicApi,
         ⟨none, none, none, none,
          some ⟨⟨some "192.168.1.2", "abcdef0123456789", "user", none⟩⟩⟩,
         none⟩ := by decide

/-- Claim C5 (amended): `unlink` targets `unlinking` from every state except
`connected`, where the machine — done in its top-level final state — drops
every dispatched event; completing the unlink actor clears the persisted
storage, resets the discovered id and the BridgeConfig, re-reads the
username from preferences, preserves the preference-supplied address
override (resetting the context address only when no override is
configured), leaves the session handle (`hueClient`) unchanged, and routes
to `linking` when an address override is configured and to
`discoveringUsingPublicApi` otherwise. -/
theorem unlink_transition_characterization (p : Preferences)
    (s : MachineState) (ctx : HueContext) (st : Option BridgeConfig) :
    (s ≠ .connected →
      step p ⟨s, ctx, st⟩ (.event .unlink) = ⟨.unlinking, ctx, st⟩)
    ∧ (∀ e : HueEvent, step p ⟨.connected, ctx, st⟩ (.event e)
        = ⟨.connected, ctx, st⟩)
    ∧ step p ⟨.unlinking, ctx, st⟩ .unlinkDone =
        (if jsTruthy p.bridgeIpAddress then
          ⟨.linking,
           { ctx with bridgeUsername := p.bridgeUsername, bridgeId := none,
                      bridgeConfig := none }, none⟩
        else
          ⟨.discoveringUsingPublicApi,
           { ctx with bridgeIpAddress := none,
                      bridgeUsername := p.bridgeUsername, bridgeId := none,
                      bridgeConfig := none }, none⟩) := by
  refine ⟨fun hs => ?_, fun e => rfl, rfl⟩
  simp only [step, if_neg hs]

/-- Witness for `unlink_transition_characterization` at a non-final
state. -/
theorem unlink_transition_witness :
    step ⟨none, none⟩ ⟨.failedToConnect, ⟨none, none, none, none, none⟩, none⟩
        (.event .unlink)
      = ⟨.unlinking, ⟨none, none, none, none, none⟩, none⟩ :=
  (unlink_transition_characterization ⟨none, none⟩ .failedToConnect
    ⟨none, none, none, none, none⟩ none).1 (by decide)

/-! ## Claim C6 — bridge-reported pairing errors -/

/-- Claim C6, counterexample: the `link button not pressed` response is not
surfaced as a distinct retryable error — it is rejected in exactly the same
capitalized-message form as any other Bridge-reported error, while the
claim's reading (`linkErrorSpec`) reserves a distinct LinkNotReady value
for it. -/
theorem link_button_error_counterexample :
    getUsernameFromBridgeResult 200 ⟨some "link button not pressed", none⟩
        = .rejected "Link button not pressed"
    ∧ getUsernameFromBridgeResult 200 ⟨some "device not found", none⟩
        = .rejected "Device not found"
    ∧ linkErrorSpec "link button not pressed" = .LinkNotReady
    ∧ linkErrorSpec "device not found" = .LinkRejected "Device not found" := by
  decide

/-- Claim C6 (amended): every Bridge-reported error description — including
`link button not pressed` — rejects the pairing uniformly with the Bridge's
message, first character capitalized; the code has no distinct retryable
LinkNotReady outcome. -/
theorem bridge_error_capitalized (description : String)
    (success : Option String) (h : description ≠ "") :
    getUsernameFromBridgeResult 200 ⟨some description, success⟩
      = .rejected (jsCapitalize description) := by
  simp [getUsernameFromBridgeResult, jsTruthy, h]

/-- Witness for `bridge_error_capitalized` on a concrete description. -/
theorem bridge_error_capitalized_witness :
    getUsernameFromBridgeResult 200 ⟨some "unauthorized user", none⟩
      = .rejected "Unauthorized user" := by
  have h := bridge_error_capitalized "unauthorized user" none (by decide)
  rw [show jsCapitalize "unauthorized user" = "Unauthorized user" from by decide] at h
  exact h

/-! ## Claim C7 — the mDNS listener's lifetime -/

/-- Claim C7, counterexample: a run in which a service resolves the
discovery before the timer fires leaves the promise settled but the
listener still running — the browser is stopped only by the 10-second
timer, contradicting the claim that the listener is cancelled as soon as
the operation settles. -/
theorem mdns_listener_not_stopped_counterexample :
    (mdnsRun [.up ⟨["192.168.1.2"], "abcdef0123456789"⟩]).settled
        = some (.ok ("192.168.1.2", "abcdef0123456789"))
    ∧ (mdnsRun [.up ⟨["192.168.1.2"], "abcdef0123456789"⟩]).stopped = false := by
  decide

/-- Claim C7 (amended): local discovery still resolves or fails exactly once
(the first settling event fixes the result, later events cannot change it)
and a run seeing only the timer fails with the NotFound rejection, but the
listener is cancelled only when the 10-second timer fires — which happens
in every run, even ones already settled — never at resolution or error
time. -/
theorem mdns_run_characterization (events extra : List MdnsEvent) (n : Nat) :
    ((mdnsRun (events ++ extra)).settled =
        ((mdnsRun events).settled).orElse (fun _ => (mdnsRun extra).settled))
    ∧ ((mdnsRun events).stopped = true ↔ MdnsEvent.timerFires ∈ events)
    ∧ ((mdnsRun (List.replicate (n + 1) MdnsEvent.timerFires)).settled
        = some (.error mdnsFailureMsg)) := by
  refine ⟨?_, ?_, ?_⟩
  · rw [mdnsRun, List.foldl_append]
    exact mdnsFoldl_settled extra _
  · rw [mdnsRun, mdnsFoldl_stopped]
    simp [List.any_eq_true]
  · rw [List.replicate_succ, mdnsRun, List.foldl_cons]
    rw [mdnsFoldl_settled]
    simp [mdnsStep, mdnsSettleValue, Option.orElse]

/-! ## Claim C8 — validation of the preference address override -/

/-- Claim C8, counterexample: `::1` is a valid IPv6 literal but not an IPv4
literal, yet `loadPreferences` accepts it — the code gates on `net.isIP`,
which admits IPv6, while the claim demands failure for every override that
is not a valid IPv4 literal. -/
theorem preference_ipv6_counterexample :
    loadPreferencesResult ⟨some "::1", none⟩ = .ok (some "::1", none)
    ∧ isIPv4 "::1" = false := by decide

/-- Claim C8 (amended): `loadPreferences` fails exactly when a truthy
address override is present and `net.isIP` classifies it as neither a valid
IPv4 nor a valid IPv6 literal, and succeeds (returning both overrides)
otherwise; the failure outcome drives the machine into the
`failedToLoadPreferences` state, which no event except the global `unlink`
leaves. -/
theorem loadPreferences_characterization (p : Preferences) (ctx : HueContext)
    (st : Option BridgeConfig) :
    (loadPreferencesResult p = .error "Bridge IP address is not a valid IPv4 address"
      ↔ jsTruthy p.bridgeIpAddress = true ∧ netIsIP (p.bridgeIpAddress.getD "") = 0)
    ∧ (loadPreferencesResult p = .ok (p.bridgeIpAddress, p.bridgeUsername)
      ↔ ¬(jsTruthy p.bridgeIpAddress = true ∧
            netIsIP (p.bridgeIpAddress.getD "") = 0))
    ∧ (∀ q : Preferences, step q ⟨.loadingPreferences, ctx, st⟩ .prefsError
        = ⟨.failedToLoadPreferences, ctx, st⟩)
    ∧ (∀ q : Preferences, ∀ e : HueEvent, e ≠ .unlink →
        step q ⟨.failedToLoadPreferences, ctx, st⟩ (.event e)
          = ⟨.failedToLoadPreferences, ctx, st⟩) := by
  refine ⟨?_, ?_, fun q => rfl, ?_⟩
  · cases ht : jsTruthy p.bridgeIpAddress <;>
      rcases eq_or_ne (netIsIP (p.bridgeIpAddress.getD "")) 0 with h0 | h0 <;>
      simp_all [loadPreferencesResult]
  · cases ht : jsTruthy p.bridgeIpAddress <;>
      rcases eq_or_ne (netIsIP (p.bridgeIpAddress.getD "")) 0 with h0 | h0 <;>
      simp_all [loadPreferencesResult]
  · intro q e he
    cases e <;> first | rfl | exact absurd rfl he

/-- Witness for `loadPreferences_characterization`: a malformed override
fails, and `retry` does not leave the terminal failure state. -/
theorem loadPreferences_witness :
    loadPreferencesResult ⟨some "not-an-ip", none⟩
      = .error "Bridge IP address is not a valid IPv4 address"
    ∧ step ⟨none, none⟩ ⟨.failedToLoadPreferences, ⟨none, none, none, none, none⟩,
        none⟩ (.event .retry)
      = ⟨.failedToLoadPreferences, ⟨none, none, none, none, none⟩, none⟩ := by
  have h := loadPreferences_characterization ⟨some "not-an-ip", none⟩
    ⟨none, none, none, none, none⟩ none
  exact ⟨h.1.mpr ⟨by decide, by decide⟩,
    h.2.2.2 ⟨none, none⟩ .retry (by decide)⟩

/-! ## Claim C9 — id-as-hostname and the resolver hook -/

/-- Claim C9, counterexample: for a configuration whose id contains
uppercase hexadecimal characters, the session is still addressed by the id,
but the `lookup` hook does not resolve that hostname to the configured IP —
the hook compares the lower-cased hostname against the id and falls back to
default DNS. -/
theorem lookup_uppercase_id_counterexample :
    connectAuthority ⟨some "192.168.1.2", "001788FFFE23AB12", "user", none⟩
        = "https://001788FFFE23AB12"
    ∧ lookup ⟨some "192.168.1.2", "001788FFFE23AB12", "user", none⟩
        "001788FFFE23AB12" = .dnsFallback "001788FFFE23AB12" := by decide

/-- Claim C9 (amended): `connect` always uses `config.id` (never the IP
literal) as the protocol-level authority, and — given a defined
`ipAddress` — the `lookup` hook resolves a hostname to `config.ipAddress`
exactly when its lower-casing equals `config.id`; in particular it resolves
`config.id` itself whenever the id is already lower-case. -/
theorem connect_hostname_characterization (bridgeConfig : BridgeConfig)
    (ip : String) (hostname : String) (h : bridgeConfig.ipAddress = some ip) :
    connectAuthority bridgeConfig = "https://" ++ bridgeConfig.id
    ∧ (lookup bridgeConfig hostname = .resolved ip 4
        ↔ jsToLowerCase hostname = bridgeConfig.id)
    ∧ (jsToLowerCase bridgeConfig.id = bridgeConfig.id →
        lookup bridgeConfig bridgeConfig.id = .resolved ip 4) := by
  refine ⟨rfl, ?_, ?_⟩
  · rcases eq_or_ne (jsToLowerCase hostname) bridgeConfig.id with h2 | h2 <;>
      simp_all [lookup]
  · intro hl
    simp [lookup, h, hl]

/-- Witness for `connect_hostname_characterization` with a lower-case id. -/
theorem connect_hostname_witness :
    lookup ⟨some "192.168.1.2", "001788fffe23ab12", "user", none⟩
      "001788fffe23ab12" = .resolved "192.168.1.2" 4 :=
  (connect_hostname_characterization
    ⟨some "192.168.1.2", "001788fffe23ab12", "user", none⟩
    "192.168.1.2" "001788fffe23ab12" rfl).2.2 (by decide)

/-! ## Claim C10 — linking with an existing username -/

/-- Claim C10: with a non-empty username supplied, `getBridgeConfig` never
issues the pairing POST (the returned flag is `false`) and assembles the
BridgeConfig with that username unchanged, the id preferring a truthy
supplied `bridgeId` over the certificate's subject CN, and the pinned
certificate present exactly when the fetched certificate is self-signed. -/
theorem existing_username_skips_pairing (bridgeIpAddress : String)
    (bridgeId : Option String) (username : String) (cert : PeerCertificate)
    (pairing : LinkOutcome) (hu : username ≠ "")
    (hv : validateBridgeCertificate cert bridgeId = .ok ()) :
    getBridgeConfigResult bridgeIpAddress bridgeId (some username) cert pairing
      = .ok (⟨some bridgeIpAddress,
              if jsTruthy bridgeId then bridgeId.getD "" else cert.subject.CN,
              username,
              if cert.subject.CN == cert.issuer.CN then some (createPemString cert)
              else none⟩,
             false) := by
  simp [getBridgeConfigResult, hv, jsTruthy, hu]

/-- Witness for `existing_username_skips_pairing` on a self-signed
certificate with an empty raw body. -/
theorem existing_username_skips_pairing_witness :
    getBridgeConfigResult "192.168.1.2" (some "abcdef0123456789") (some "user")
        ⟨⟨"abcdef0123456789"⟩, ⟨"abcdef0123456789"⟩, []⟩ .pending
      = .ok (⟨some "192.168.1.2", "abcdef0123456789", "user",
              some "-----BEGIN CERTIFICATE-----\n-----END CERTIFICATE-----\n"⟩,
             false) := by
  have h := existing_username_skips_pairing "192.168.1.2"
    (some "abcdef0123456789") "user"
    ⟨⟨"abcdef0123456789"⟩, ⟨"abcdef0123456789"⟩, []⟩ .pending
    (by decide) (by decide)
  exact h.trans (by decide)

end Hue
